import Mathlib

/-!
Verification of the BSC trading bot core against its design description.

The definitions below are a shallow embedding of the Python sources:
chain interactions are supplied as explicit per-attempt event values,
floats are modelled as exact rationals, and database writes are modelled
as explicit effect lists.  Source files referenced: trading/sell.py,
trading/buy.py, trading/profit_management.py, tokendata/analysis.py,
database/operations.py, config.py.
-/

/-- Lowercase one ASCII character, as Python str.lower does on ASCII input. -/
def lowerChar (c : Char) : Char :=
  if 65 ≤ c.toNat ∧ c.toNat ≤ 90 then Char.ofNat (c.toNat + 32) else c

/-- Lowercase a string (ASCII), modelling Python str.lower(). -/
def lowerStr (s : String) : String := ⟨s.data.map lowerChar⟩

/-- Does the second list start with the first list. -/
def startsWithL : List Char → List Char → Bool
  | [], _ => true
  | _ :: _, [] => false
  | a :: as, b :: bs => a == b && startsWithL as bs

/-- Does the text contain the pattern as a contiguous sublist
(Python substring containment). -/
def containsSubL (pat : List Char) : List Char → Bool
  | [] => startsWithL pat []
  | b :: bs => startsWithL pat (b :: bs) || containsSubL pat bs

/-- Python: pat in s. -/
def strContains (s pat : String) : Bool := containsSubL pat.data s.data

/-- Python: pat in s.lower(). -/
def containsLower (s pat : String) : Bool := strContains (lowerStr s) pat

/-- Python: any(pat in r.lower() for r in reasons). -/
def anyContainsLower (reasons : List String) (pat : String) : Bool :=
  reasons.any fun r => containsLower r pat

/-! Configuration defaults from config.py (env-var defaults). -/

/-- config.MIN_LIQUIDITY default, in BNB. -/
def MIN_LIQUIDITY : ℚ := 5

/-- config.SLIPPAGE default, percent. -/
def SLIPPAGE : ℚ := 10

/-- config.GAS_MULTIPLIER default (1.2). -/
def GAS_MULTIPLIER : ℚ := 6 / 5

/-- config.TAKE_PROFIT_PERCENTAGE default. -/
def TAKE_PROFIT_PERCENTAGE : ℚ := 20

/-- config.STOP_LOSS_PERCENTAGE default. -/
def STOP_LOSS_PERCENTAGE : ℚ := 10

/-- config.BLACKLISTED_PATTERNS, in source order. -/
def BLACKLISTED_PATTERNS : List String :=
  ["test", "scam", "fake", "honey", "pot", "honeypot", "rug", "pull", "rugpull",
   "moon", "safe", "gem", "100x", "1000x", "fair", "presale", "pre-sale", "ico"]

/-! Gradual-sell queue, trading/sell.py lines 40-84. -/

/-- A persisted sell-queue row (database add_to_sell_queue arguments). -/
structure SellScheduleEntry where
  tokenAddress : String
  tokenSymbol : String
  tokenDecimals : ℕ
  amount : ℚ
  scheduledTime : ℚ
deriving DecidableEq

/-- The fixed (percent, delay_minutes) schedule from sell.py lines 58-64. -/
def sell_schedule : List (ℚ × ℚ) :=
  [(5, 5), (10, 15), (15, 30), (20, 60), (50, 120)]

/-- Whether database.operations defines add_to_sell_queue.  It is defined
nowhere in the repository (operations.py ends at record_transaction), so
the import at sell.py line 55 raises ImportError on every call. -/
def add_to_sell_queue_defined : Bool := false

/-- The rows the loop body of queue_token_for_gradual_selling (lines
67-77) would persist: one SellScheduleEntry per schedule step, amount =
total_amount * percent / 100, time = now + delay_minutes. -/
def gradual_sell_schedule_entries (tokenAddress tokenSymbol : String)
    (tokenDecimals : ℕ) (totalAmount : ℚ) (now : ℚ) : List SellScheduleEntry :=
  sell_schedule.map fun s =>
    { tokenAddress := tokenAddress
      tokenSymbol := tokenSymbol
      tokenDecimals := tokenDecimals
      amount := totalAmount * (s.1 / 100)
      scheduledTime := now + s.2 }

/-- queue_token_for_gradual_selling, sell.py lines 53-84: the whole body
sits in a try whose first statement imports add_to_sell_queue; since
that name is undefined the import raises, the except at line 82 catches
it, and the call returns False having created no entries.  Were that
name to exist, it would return True with the five schedule rows. -/
def queue_token_for_gradual_selling (tokenAddress tokenSymbol : String)
    (tokenDecimals : ℕ) (totalAmount : ℚ) (now : ℚ) :
    Bool × List SellScheduleEntry :=
  if add_to_sell_queue_defined then
    (true, gradual_sell_schedule_entries tokenAddress tokenSymbol tokenDecimals
      totalAmount now)
  else
    (false, [])

/-! Profit computation and the tiered take-profit selection,
trading/profit_management.py lines 55-69 and 210-236. -/

/-- calculate_profit_percentage from profit_management.py. -/
def calculate_profit_percentage (current_value investment_amount : ℚ) : ℚ :=
  if investment_amount = 0 then 0
  else (current_value - investment_amount) / investment_amount * 100

/-- The tier selection of execute_take_profit_strategy (lines 222-236):
the fraction of holdings to sell, or none for the skipped branch. -/
def tiered_sell_amount (profit_percentage amount_tokens : ℚ) : Option ℚ :=
  if 100 ≤ profit_percentage then some (amount_tokens * (3 / 4))
  else if 50 ≤ profit_percentage then some (amount_tokens * (1 / 2))
  else if TAKE_PROFIT_PERCENTAGE ≤ profit_percentage then some (amount_tokens * (1 / 4))
  else none

/-! The sell execution state machine, trading/sell.py lines 114-441.
Chain interactions of each retry attempt are supplied as one SellEvent. -/

/-- What the chain does during one sell attempt.  exception covers the
web3 handler of lines 350-377 (which tags known message patterns),
otherError the generic handler of lines 379-396; approvalFailed is the
failed-approval-receipt return of lines 198-206; proceed carries the
estimate_bnb_output result, the swap receipt status, the gas the receipt
reports used, and the decoded revert reason used on failure. -/
inductive SellEvent where
  | exception (msg : String)
  | otherError (msg : String)
  | approvalFailed (reason : String)
  | proceed (estimatedBnb : Option ℚ) (receiptStatus : ℕ) (gasUsed : ℚ)
      (revertReason : String)
deriving DecidableEq

/-- Arguments of execute_sell. -/
structure SellParams where
  tokenAddress : String
  tokenSymbol : String
  tokenDecimals : ℕ
  amountTokens : Option ℚ
  portfolioId : Option ℕ
  isTest : Bool
  walletBalanceWei : ℕ
deriving DecidableEq

/-- Mutable locals of the retry loop: amount_tokens (None until first
resolved from the wallet balance), failure_reasons, plus two effect
traces the Python writes elsewhere (portfolio status updates) or only
logs (the amount used by each attempt). -/
structure SellState where
  amountTokens : Option ℚ
  failureReasons : List String
  portfolioUpdates : List (ℕ × String)
  attemptAmounts : List ℚ
deriving DecidableEq

/-- The distinct return dictionaries of execute_sell. -/
inductive SellOutcome where
  | success (tokensSold bnbReceived : ℚ)
  | skipped (reason : String)
  | failedSingle (reason : String)
  | failed (reasons : List String)
deriving DecidableEq

/-- Lines 136-147: on retries with an explicit amount, multiply the
current amount by 0.5^attempt when a prior failure reason mentions gas
or exceed (case-insensitive), else by 0.8^attempt. -/
def adjusted_sell_amount (amount : ℚ) (failureReasons : List String)
    (attempt : ℕ) : ℚ :=
  if 0 < attempt then
    if anyContainsLower failureReasons "gas" || anyContainsLower failureReasons "exceed" then
      amount * (1 / 2) ^ attempt
    else
      amount * (4 / 5) ^ attempt
  else amount

/-- Lines 222-231: extra slippage added for this attempt. -/
def sell_extra_slippage (failureReasons : List String) (attempt : ℕ) : ℚ :=
  let base := min (10 * (attempt : ℚ)) 30
  if anyContainsLower failureReasons "price impact" || anyContainsLower failureReasons "slippage" then
    min (base + 15) 49
  else base

/-- Lines 238-245: the gas price multiplier for this attempt. -/
def sell_gas_multiplier (failureReasons : List String) (attempt : ℕ) : ℚ :=
  let base := GAS_MULTIPLIER * (1 + (1 / 5) * (attempt : ℚ))
  if anyContainsLower failureReasons "gas" then base * (3 / 2) else base

/-- Lines 243-246: the gas limit multiplier for this attempt. -/
def sell_gas_limit_multiplier (failureReasons : List String) (attempt : ℕ) : ℚ :=
  if anyContainsLower failureReasons "gas" then 1 + (2 / 5) * (attempt : ℚ)
  else 1 + (1 / 5) * (attempt : ℚ)

/-- Line 249: gas_limit = 300000 * gas_limit_multiplier. -/
def sell_gas_limit (failureReasons : List String) (attempt : ℕ) : ℚ :=
  300000 * sell_gas_limit_multiplier failureReasons attempt

/-- Lines 355-363: extra tags appended after a known web3 exception. -/
def exception_extra_reasons (msg : String) : List String :=
  if strContains msg "gas required exceeds allowance" then ["EXCEEDED_MAXIMUM"]
  else if strContains msg "always failing transaction" then ["ALWAYS_FAILING"]
  else if strContains msg "execution reverted" then ["EXECUTION_REVERTED"]
  else []

/-- One iteration of the execute_sell retry loop: either a terminal
return (outcome plus final state) or the state carried to the next
attempt. -/
def sellStep (p : SellParams) (attempt : ℕ) (st : SellState) (e : SellEvent) :
    (SellOutcome × SellState) ⊕ SellState :=
  let resolved : ℚ × ℤ :=
    match st.amountTokens with
    | none => ((p.walletBalanceWei : ℚ) / 10 ^ p.tokenDecimals, (p.walletBalanceWei : ℤ))
    | some a =>
        let a2 := adjusted_sell_amount a st.failureReasons attempt
        (a2, ⌊a2 * 10 ^ p.tokenDecimals⌋)
  let amount := resolved.1
  let amountWei := resolved.2
  if amountWei < 1000 then
    .inl (.skipped "Amount too small", st)
  else
    let st1 : SellState :=
      { st with amountTokens := some amount
                attemptAmounts := st.attemptAmounts ++ [amount] }
    match e with
    | .approvalFailed r =>
        .inl (.failedSingle ("Approval failed: " ++ r), st1)
    | .exception msg =>
        .inr { st1 with
          failureReasons := st1.failureReasons ++ [msg] ++ exception_extra_reasons msg }
    | .otherError msg =>
        .inr { st1 with failureReasons := st1.failureReasons ++ [msg] }
    | .proceed est status gasUsed revertReason =>
        match est with
        | none => .inl (.failedSingle "Failed to estimate BNB output", st1)
        | some bnb =>
          if bnb = 0 then
            .inl (.failedSingle "Failed to estimate BNB output", st1)
          else
            let gasLimitInt : ℤ := ⌊sell_gas_limit st1.failureReasons attempt⌋
            let gasUsagePercent : ℚ := gasUsed / (gasLimitInt : ℚ) * 100
            if status = 1 then
              let st2 :=
                if p.isTest = false then
                  match p.portfolioId with
                  | some pid => { st1 with portfolioUpdates := st1.portfolioUpdates ++ [(pid, "sold")] }
                  | none => st1
                else st1
              .inl (.success amount bnb, st2)
            else
              let rs := st1.failureReasons ++ [revertReason]
              .inr { st1 with
                failureReasons := if 95 < gasUsagePercent then rs ++ ["OUT_OF_GAS"] else rs }

/-- The retry loop: consume one event per attempt; falling off the end
of the event list is the exhaustion of max_retries. -/
def sellGo (p : SellParams) : List SellEvent → ℕ → SellState →
    (SellOutcome × SellState) ⊕ SellState
  | [], _, st => .inr st
  | e :: es, attempt, st =>
      match sellStep p attempt st e with
      | .inl out => .inl out
      | .inr st2 => sellGo p es (attempt + 1) st2

/-- Initial loop state of execute_sell. -/
def initSellState (p : SellParams) : SellState :=
  { amountTokens := p.amountTokens, failureReasons := [],
    portfolioUpdates := [], attemptAmounts := [] }

/-- execute_sell with its final state: exhaustion returns the failed
dictionary carrying the accumulated failure_reasons (lines 436-441). -/
def sellRun (p : SellParams) (events : List SellEvent) : SellOutcome × SellState :=
  match sellGo p events 0 (initSellState p) with
  | .inl out => out
  | .inr st => (.failed st.failureReasons, st)

/-- The outcome of execute_sell. -/
def execute_sell (p : SellParams) (events : List SellEvent) : SellOutcome :=
  (sellRun p events).1

/-! The buy execution loop, trading/buy.py lines 47-195. -/

/-- What the chain does during one buy attempt.  minTokensFailed is the
falsy calculate_min_tokens result of lines 75-78; receipt carries the
swap receipt status and the wallet token balance read afterwards;
exception covers both handlers of lines 182-185 (each only logs). -/
inductive BuyEvent where
  | exception (msg : String)
  | minTokensFailed
  | receipt (status : ℕ) (balanceWei : ℕ) (txHash : String)
deriving DecidableEq

/-- The distinct non-None return dictionaries of execute_buy. -/
inductive BuyOutcome where
  | success (tokenBalance bnbSpent : ℚ) (txHash : String)
  | failedTx (txHash : String)
deriving DecidableEq

/-- Arguments of execute_buy. -/
structure BuyParams where
  tokenAddress : String
  bnbAmount : ℚ
  isTest : Bool
  tokenDecimals : ℕ
deriving DecidableEq

/-- The execute_buy retry loop.  A falsy min-token quote returns None at
once (line 78); a received receipt returns at once, success or not
(lines 131-180, the reverted branch carries no reason list); an
exception only logs and retries; exhaustion returns None (line 195). -/
def buyGo (p : BuyParams) : List BuyEvent → Option BuyOutcome
  | [] => none
  | e :: es =>
      match e with
      | .minTokensFailed => none
      | .receipt status balanceWei txHash =>
          if status = 1 then
            some (.success ((balanceWei : ℚ) / 10 ^ p.tokenDecimals) p.bnbAmount txHash)
          else
            some (.failedTx txHash)
      | .exception _ => buyGo p es

/-- execute_buy: the Python returns a dict or None. -/
def execute_buy (p : BuyParams) (events : List BuyEvent) : Option BuyOutcome :=
  buyGo p events

/-! Portfolio rows, database/operations.py lines 157-219. -/

/-- One row of the portfolio table (fields the claims need). -/
structure PortfolioEntry where
  id : ℕ
  tokenAddress : String
  tokenSymbol : String
  amountTokens : ℚ
  status : String
deriving DecidableEq

/-- update_portfolio_status: set the status of the row with that id. -/
def update_portfolio_status (db : List PortfolioEntry) (portfolio_id : ℕ)
    (status : String) : List PortfolioEntry :=
  db.map fun e => if e.id = portfolio_id then { e with status := status } else e

/-- get_active_portfolio: rows whose status is the literal active. -/
def get_active_portfolio (db : List PortfolioEntry) : List PortfolioEntry :=
  db.filter fun e => e.status == "active"

/-- Replay a list of (id, status) updates against the portfolio table. -/
def apply_portfolio_updates (db : List PortfolioEntry)
    (updates : List (ℕ × String)) : List PortfolioEntry :=
  updates.foldl (fun d u => update_portfolio_status d u.1 u.2) db

/-! The tiered take-profit strategy, profit_management.py lines 194-261. -/

/-- The distinct return dictionaries of execute_take_profit_strategy. -/
inductive TakeProfitResult where
  | success (profitPercentage tokensSold bnbReceived : ℚ)
  | skipped (reason : String)
  | failed (reason : String)
deriving DecidableEq

/-- Lines 247-257 of profit_management.py: build the strategy result
from the sell result (only the success status is treated as success). -/
def take_profit_outcome (profit_percentage sell_amount : ℚ)
    (r : SellOutcome × SellState) : TakeProfitResult × List (ℕ × String) :=
  match r with
  | (SellOutcome.success _ bnb, stF) =>
      (.success profit_percentage sell_amount bnb, stF.portfolioUpdates)
  | (_, stF) => (.failed "Sell execution failed", stF.portfolioUpdates)

/-- execute_take_profit_strategy: estimate the position value, pick the
tier, and call execute_sell with the partial amount, portfolio_id set
and is_test left False; also returns the portfolio status updates the
sell performed. -/
def execute_take_profit_strategy (tokenAddress tokenSymbol : String)
    (tokenDecimals : ℕ) (amount_tokens investment_amount : ℚ)
    (portfolio_id : ℕ) (estimatedValue : Option ℚ) (walletBalanceWei : ℕ)
    (sellEvents : List SellEvent) : TakeProfitResult × List (ℕ × String) :=
  match estimatedValue with
  | none => (.failed "Failed to estimate current value", [])
  | some current_value =>
      let profit_percentage := calculate_profit_percentage current_value investment_amount
      match tiered_sell_amount profit_percentage amount_tokens with
      | none => (.skipped "Profit threshold not met", [])
      | some sell_amount =>
          take_profit_outcome profit_percentage sell_amount (sellRun
            { tokenAddress := tokenAddress
              tokenSymbol := tokenSymbol
              tokenDecimals := tokenDecimals
              amountTokens := some sell_amount
              portfolioId := some portfolio_id
              isTest := false
              walletBalanceWei := walletBalanceWei } sellEvents)

/-! Token screening, tokendata/analysis.py. -/

/-- The chain-visible facts about one candidate token, as the screening
reads would report them when they succeed. -/
structure TokenEnv where
  address : String
  alreadyBlacklisted : Bool
  name : String
  symbol : String
  decimals : ℕ
  totalSupply : ℕ
  pairAddress : Option String
  liquidityBnb : ℚ
  suspiciousAssembly : Bool
  sellHistoryOk : Bool
  honeypot : Bool
deriving DecidableEq

/-- One blacklisted_tokens row written by add_to_blacklist. -/
structure BlacklistEntry where
  tokenAddress : String
  tokenSymbol : String
  reason : String
deriving DecidableEq

/-- The distinct rejection sites of analyze_token and fetch_token_data,
one constructor per return-None branch. -/
inductive RejectReason where
  | alreadyBlacklisted
  | lexicalPattern (pattern : String)
  | noPair
  | insufficientLiquidity
  | suspiciousAssembly
  | insufficientSellHistory
  | honeypot
deriving DecidableEq

/-- Lines 91-98 of analysis.py: the first configured pattern contained in
the lowercased name or lowercased symbol. -/
def lexical_match (env : TokenEnv) : Option String :=
  BLACKLISTED_PATTERNS.find? fun p =>
    containsLower env.name p || containsLower env.symbol p

/-- check_token_liquidity lines 164-169: None when below the configured
minimum, else the liquidity. -/
def check_token_liquidity (liquidityBnb : ℚ) : Option ℚ :=
  if liquidityBnb < MIN_LIQUIDITY then none else some liquidityBnb

/-- The dict analyze_token returns when every check passes. -/
structure TokenAnalysisOk where
  name : String
  symbol : String
  decimals : ℕ
  totalSupply : ℕ
  address : String
  pairAddress : String
  liquidityBnb : ℚ
deriving DecidableEq

/-- analyze_token: blacklist lookup, metadata fetch with the lexical
check (fetch_token_data), pair lookup, liquidity check, then the three
security checks; paired with the blacklist rows the run writes. -/
def analyze_token (env : TokenEnv) :
    Except RejectReason TokenAnalysisOk × List BlacklistEntry :=
  if env.alreadyBlacklisted then (.error .alreadyBlacklisted, [])
  else
    match lexical_match env with
    | some p =>
        (.error (.lexicalPattern p),
         [{ tokenAddress := env.address, tokenSymbol := env.symbol,
            reason := "Contains blacklisted pattern: " ++ p }])
    | none =>
        match env.pairAddress with
        | none => (.error .noPair, [])
        | some pa =>
            match check_token_liquidity env.liquidityBnb with
            | none => (.error .insufficientLiquidity, [])
            | some liq =>
                if env.suspiciousAssembly then
                  (.error .suspiciousAssembly,
                   [{ tokenAddress := env.address, tokenSymbol := env.symbol,
                      reason := "Suspicious assembly code detected" }])
                else if env.sellHistoryOk = false then
                  (.error .insufficientSellHistory,
                   [{ tokenAddress := env.address, tokenSymbol := env.symbol,
                      reason := "Insufficient sell history" }])
                else if env.honeypot then
                  (.error .honeypot,
                   [{ tokenAddress := env.address, tokenSymbol := env.symbol,
                      reason := "Honeypot detected" }])
                else
                  (.ok { name := env.name, symbol := env.symbol,
                         decimals := env.decimals, totalSupply := env.totalSupply,
                         address := env.address, pairAddress := pa,
                         liquidityBnb := liq }, [])

/-! Claim theorems. -/

/-- C9: every gradual-sell enqueue returns False having persisted zero
SellScheduleEntry rows, because the import of the undefined
add_to_sell_queue raises on entry; the five-step split the loop body
was written to persist (5, 10, 15, 20, 50 percent of the total, summing
to the total, at strictly increasing times 5, 15, 30, 60, 120 minutes
from enqueue) thus never reaches the store. -/
theorem gradual_sell_schedule_spec (addr sym : String) (dec : ℕ) (total now : ℚ) :
    queue_token_for_gradual_selling addr sym dec total now = (false, []) ∧
    (gradual_sell_schedule_entries addr sym dec total now).length = 5 ∧
    (gradual_sell_schedule_entries addr sym dec total now).map SellScheduleEntry.amount =
      [total * (5 / 100), total * (10 / 100), total * (15 / 100),
       total * (20 / 100), total * (50 / 100)] ∧
    ((gradual_sell_schedule_entries addr sym dec total now).map
      SellScheduleEntry.amount).sum = total ∧
    (gradual_sell_schedule_entries addr sym dec total now).map
      SellScheduleEntry.scheduledTime =
      [now + 5, now + 15, now + 30, now + 60, now + 120] ∧
    List.Chain' (fun a b => a < b)
      ((gradual_sell_schedule_entries addr sym dec total now).map
        SellScheduleEntry.scheduledTime) := by
  refine ⟨rfl, rfl, rfl, ?_, rfl, ?_⟩
  · show total * (5 / 100) + (total * (10 / 100) + (total * (15 / 100) +
      (total * (20 / 100) + (total * (50 / 100) + 0)))) = total
    ring
  · show List.Chain' (fun a b => a < b) [now + 5, now + 15, now + 30, now + 60, now + 120]
    refine List.chain'_cons.mpr ⟨by linarith, ?_⟩
    refine List.chain'_cons.mpr ⟨by linarith, ?_⟩
    refine List.chain'_cons.mpr ⟨by linarith, ?_⟩
    refine List.chain'_cons.mpr ⟨by linarith, List.chain'_singleton _⟩

/-- C5: the tiered take-profit evaluation, at the configured base target
of 20 percent: profit of at least 100 percent sells exactly 75 percent
of the held amount, profit in [50, 100) sells exactly 50 percent,
profit in [base target, 50) sells exactly 25 percent, and profit below
the base target performs no sell and returns the skipped outcome. -/
theorem tiered_take_profit_cases (addr sym : String) (dec : ℕ)
    (amount inv cv : ℚ) (pid wb : ℕ) (events : List SellEvent) :
    (100 ≤ calculate_profit_percentage cv inv →
      tiered_sell_amount (calculate_profit_percentage cv inv) amount =
        some (amount * (3 / 4))) ∧
    (50 ≤ calculate_profit_percentage cv inv →
      calculate_profit_percentage cv inv < 100 →
      tiered_sell_amount (calculate_profit_percentage cv inv) amount =
        some (amount * (1 / 2))) ∧
    (TAKE_PROFIT_PERCENTAGE ≤ calculate_profit_percentage cv inv →
      calculate_profit_percentage cv inv < 50 →
      tiered_sell_amount (calculate_profit_percentage cv inv) amount =
        some (amount * (1 / 4))) ∧
    (calculate_profit_percentage cv inv < TAKE_PROFIT_PERCENTAGE →
      execute_take_profit_strategy addr sym dec amount inv pid (some cv) wb events =
        (.skipped "Profit threshold not met", [])) := by
  refine ⟨?_, ?_, ?_, ?_⟩
  · intro h
    rw [tiered_sell_amount, if_pos h]
  · intro h1 h2
    rw [tiered_sell_amount, if_neg (by linarith), if_pos h1]
  · intro h1 h2
    rw [tiered_sell_amount, if_neg (by linarith), if_neg (by linarith), if_pos h1]
  · intro h
    have h20 : calculate_profit_percentage cv inv < 20 := by
      simpa [TAKE_PROFIT_PERCENTAGE] using h
    rw [execute_take_profit_strategy]
    rw [tiered_sell_amount, if_neg (by linarith), if_neg (by linarith),
      if_neg (by simpa [TAKE_PROFIT_PERCENTAGE, not_le] using h20)]

/-- C5 witness: the four tiers at profits 120, 60, 22 and 5 percent. -/
theorem tiered_take_profit_cases_witness :
    tiered_sell_amount (calculate_profit_percentage (11 / 5) 1) 1000 = some 750 ∧
    tiered_sell_amount (calculate_profit_percentage (8 / 5) 1) 1000 = some 500 ∧
    tiered_sell_amount (calculate_profit_percentage (61 / 50) 1) 1000 = some 250 ∧
    execute_take_profit_strategy "0xA" "AAA" 1 1000 1 7 (some (21 / 20)) 0 [] =
      (.skipped "Profit threshold not met", []) := by
  refine ⟨?_, ?_, ?_, ?_⟩
  · have h := (tiered_take_profit_cases "0xA" "AAA" 1 1000 1 (11 / 5) 7 0 []).1
      (by norm_num [calculate_profit_percentage])
    norm_num at h ⊢
    exact h
  · have h := (tiered_take_profit_cases "0xA" "AAA" 1 1000 1 (8 / 5) 7 0 []).2.1
      (by norm_num [calculate_profit_percentage])
      (by norm_num [calculate_profit_percentage])
    norm_num at h ⊢
    exact h
  · have h := (tiered_take_profit_cases "0xA" "AAA" 1 1000 1 (61 / 50) 7 0 []).2.2.1
      (by norm_num [calculate_profit_percentage, TAKE_PROFIT_PERCENTAGE])
      (by norm_num [calculate_profit_percentage])
    norm_num at h ⊢
    exact h
  · exact (tiered_take_profit_cases "0xA" "AAA" 1 1000 1 (21 / 20) 7 0 []).2.2.2
      (by norm_num [calculate_profit_percentage, TAKE_PROFIT_PERCENTAGE])

/-- C8: a history of three failures whose reasons mention gas makes the
gas price multiplier computed for attempt index 3 strictly larger than
the one computed for the same attempt under a history with no
gas-related reason. -/
theorem gas_escalation_monotonic (rs1 rs2 : List String)
    (hlen : rs1.length = 3)
    (hgas : ∀ r ∈ rs1, containsLower r "gas" = true)
    (hclean : ∀ r ∈ rs2, containsLower r "gas" = false) :
    sell_gas_multiplier rs2 3 < sell_gas_multiplier rs1 3 := by
  have h1 : anyContainsLower rs1 "gas" = true := by
    cases rs1 with
    | nil => simp at hlen
    | cons r rest =>
        have := hgas r (by simp)
        simp [anyContainsLower, this]
  have h2 : anyContainsLower rs2 "gas" = false := by
    simp only [anyContainsLower, List.any_eq_false]
    intro r hr
    simp [hclean r hr]
  rw [sell_gas_multiplier, sell_gas_multiplier, h1, h2]
  norm_num [GAS_MULTIPLIER]

/-- C8 witness: three gas failures against three clean failures. -/
theorem gas_escalation_monotonic_witness :
    sell_gas_multiplier ["execution reverted", "timeout", "deadline passed"] 3 <
      sell_gas_multiplier
        ["OUT_OF_GAS", "gas required exceeds allowance", "Gas too low"] 3 :=
  gas_escalation_monotonic
    ["OUT_OF_GAS", "gas required exceeds allowance", "Gas too low"]
    ["execution reverted", "timeout", "deadline passed"]
    (by decide) (by decide) (by decide)

/-- C6: a token whose fetched name or symbol contains a configured
blacklisted substring (checked against the lowercased name and symbol)
is rejected with the lexical reason and a blacklist row is written,
whatever its liquidity, pair or bytecode-related fields say; the token
must not already be blacklisted, else the fetch never happens. -/
theorem lexical_blacklist_rejects (env : TokenEnv)
    (hbl : env.alreadyBlacklisted = false)
    (hmatch : ∃ p ∈ BLACKLISTED_PATTERNS,
      (containsLower env.name p || containsLower env.symbol p) = true) :
    ∃ p, p ∈ BLACKLISTED_PATTERNS ∧
      (containsLower env.name p || containsLower env.symbol p) = true ∧
      (analyze_token env).1 = .error (.lexicalPattern p) ∧
      (analyze_token env).2 =
        [{ tokenAddress := env.address, tokenSymbol := env.symbol,
           reason := "Contains blacklisted pattern: " ++ p }] := by
  have hsome : (lexical_match env).isSome := by
    rw [lexical_match, List.find?_isSome]
    exact hmatch
  obtain ⟨p, hp⟩ := Option.isSome_iff_exists.mp hsome
  have hfind : BLACKLISTED_PATTERNS.find?
      (fun q => containsLower env.name q || containsLower env.symbol q) = some p := by
    rw [lexical_match] at hp
    exact hp
  have hmem := List.mem_of_find?_eq_some hfind
  have hprop := List.find?_some hfind
  simp only [] at hprop
  refine ⟨p, hmem, hprop, ?_, ?_⟩ <;>
    simp [analyze_token, hbl, hp]

/-- A concrete candidate whose name matches a blacklisted pattern. -/
def safeMoonEnv : TokenEnv :=
  { address := "0xS", alreadyBlacklisted := false,
    name := "SafeMoon", symbol := "SMOON", decimals := 18, totalSupply := 1000,
    pairAddress := some "0xP", liquidityBnb := 100, suspiciousAssembly := false,
    sellHistoryOk := true, honeypot := false }

/-- C6 witness: a token named SafeMoon is lexically rejected. -/
theorem lexical_blacklist_rejects_witness :
    ∃ p, p ∈ BLACKLISTED_PATTERNS ∧
      (containsLower safeMoonEnv.name p || containsLower safeMoonEnv.symbol p) = true ∧
      (analyze_token safeMoonEnv).1 = .error (.lexicalPattern p) ∧
      (analyze_token safeMoonEnv).2 =
        [{ tokenAddress := safeMoonEnv.address, tokenSymbol := safeMoonEnv.symbol,
           reason := "Contains blacklisted pattern: " ++ p }] :=
  lexical_blacklist_rejects safeMoonEnv rfl (by decide)

/-- C7: a candidate that reaches the liquidity stage (not blacklisted,
lexically clean, pair resolved) with pooled liquidity strictly below the
configured minimum is rejected with the liquidity reason and no
blacklist row is written. -/
theorem low_liquidity_rejects_no_blacklist (env : TokenEnv)
    (hbl : env.alreadyBlacklisted = false)
    (hlex : lexical_match env = none)
    (hpair : env.pairAddress.isSome = true)
    (hliq : env.liquidityBnb < MIN_LIQUIDITY) :
    (analyze_token env).1 = .error .insufficientLiquidity ∧
    (analyze_token env).2 = [] := by
  obtain ⟨pa, hpa⟩ := Option.isSome_iff_exists.mp hpair
  rw [lexical_match] at hlex
  constructor <;>
    simp [analyze_token, hbl, lexical_match, hlex, hpa, check_token_liquidity, hliq]

/-- A concrete lexically clean candidate with too little liquidity. -/
def lowLiquidityEnv : TokenEnv :=
  { address := "0xL", alreadyBlacklisted := false,
    name := "Alpha", symbol := "ALP", decimals := 18, totalSupply := 1000,
    pairAddress := some "0xP", liquidityBnb := 2, suspiciousAssembly := false,
    sellHistoryOk := true, honeypot := false }

/-- C7 witness: a clean token with 2 BNB of liquidity against the
5 BNB minimum. -/
theorem low_liquidity_rejects_no_blacklist_witness :
    (analyze_token lowLiquidityEnv).1 = .error .insufficientLiquidity ∧
    (analyze_token lowLiquidityEnv).2 = [] :=
  low_liquidity_rejects_no_blacklist lowLiquidityEnv
    rfl (by decide) rfl (by norm_num [lowLiquidityEnv, MIN_LIQUIDITY])

/-- C10: a zero estimate from the pre-submission quote is treated
exactly like a missing estimate: the sell returns the single-reason
failed outcome for estimation at once, whatever events would have
followed, so no further retry attempt happens. -/
theorem zero_quote_treated_as_estimation_failure (p : SellParams) (a : ℚ)
    (status : ℕ) (gasUsed : ℚ) (reason : String) (rest : List SellEvent)
    (hamt : p.amountTokens = some a)
    (hdust : 1000 ≤ ⌊a * 10 ^ p.tokenDecimals⌋) :
    execute_sell p (SellEvent.proceed (some 0) status gasUsed reason :: rest) =
      .failedSingle "Failed to estimate BNB output" ∧
    execute_sell p (SellEvent.proceed none status gasUsed reason :: rest) =
      .failedSingle "Failed to estimate BNB output" := by
  have hnl : ¬(⌊a * 10 ^ p.tokenDecimals⌋ < 1000) := not_lt.mpr hdust
  constructor <;>
    simp [execute_sell, sellRun, sellGo, sellStep, initSellState, hamt,
      adjusted_sell_amount, hnl]

/-- C10 witness: a concrete zero quote on the first attempt. -/
theorem zero_quote_treated_as_estimation_failure_witness :
    execute_sell
      { tokenAddress := "0xT", tokenSymbol := "TKN", tokenDecimals := 1,
        amountTokens := some 2000, portfolioId := some 3, isTest := false,
        walletBalanceWei := 0 }
      [SellEvent.proceed (some 0) 1 0 "",
       SellEvent.proceed (some 5) 1 0 ""] =
      .failedSingle "Failed to estimate BNB output" :=
  (zero_quote_treated_as_estimation_failure
    { tokenAddress := "0xT", tokenSymbol := "TKN", tokenDecimals := 1,
      amountTokens := some 2000, portfolioId := some 3, isTest := false,
      walletBalanceWei := 0 }
    2000 1 0 "" [SellEvent.proceed (some 5) 1 0 ""] rfl (by norm_num)).1

/-- Parameters of a sell call with an explicit 1000-token request. -/
def reductionCexParams : SellParams :=
  { tokenAddress := "0xT", tokenSymbol := "TKN", tokenDecimals := 1,
    amountTokens := some 1000, portfolioId := none, isTest := false,
    walletBalanceWei := 0 }

/-- Three reverted receipts with a gas-free revert reason. -/
def reductionCexEvents : List SellEvent :=
  [SellEvent.proceed (some 1) 0 0 "reverted",
   SellEvent.proceed (some 1) 0 0 "reverted",
   SellEvent.proceed (some 1) 0 0 "reverted"]

/-- C2 counterexample: in a run whose failure reasons never mention gas
or exceed, attempt 2 submits 1000 * 0.8 * 0.8^2 = 512 tokens, not
1000 * 0.8^2 = 640 as the claim states. -/
theorem sell_reduction_claim_cex :
    (sellRun reductionCexParams reductionCexEvents).2.attemptAmounts = [1000, 800, 512] ∧
    (∀ r ∈ (sellRun reductionCexParams reductionCexEvents).2.failureReasons,
      containsLower r "gas" = false ∧ containsLower r "exceed" = false) ∧
    (512 : ℚ) ≠ 1000 * (4 / 5) ^ 2 := by
  have h1 : containsLower "reverted" "gas" = false := by decide
  have h2 : containsLower "reverted" "exceed" = false := by decide
  have hrun : sellRun reductionCexParams reductionCexEvents =
      (SellOutcome.failed ["reverted", "reverted", "reverted"],
       { amountTokens := some 512, failureReasons := ["reverted", "reverted", "reverted"],
         portfolioUpdates := [], attemptAmounts := [1000, 800, 512] }) := by
    norm_num [sellRun, sellGo, sellStep, initSellState, reductionCexParams,
      reductionCexEvents, adjusted_sell_amount, anyContainsLower, List.any_cons,
      List.any_nil, sell_gas_limit, sell_gas_limit_multiplier, h1, h2]
  refine ⟨by rw [hrun], ?_, by norm_num⟩
  rw [hrun]
  decide

/-- C2 amended: on retry attempt n of a sell with an explicit amount
the engine multiplies the amount carried over from the previous attempt
by 0.8^n (clean history) or 0.5^n (a prior reason mentions gas or
exceed); the reduction therefore compounds across attempts instead of
being 0.8^n or 0.5^n of the originally requested amount. -/
theorem sell_reduction_compounds (amount : ℚ) (reasons : List String) (n : ℕ)
    (hn : 1 ≤ n) :
    ((anyContainsLower reasons "gas" = false ∧ anyContainsLower reasons "exceed" = false) →
      adjusted_sell_amount amount reasons n = amount * (4 / 5) ^ n) ∧
    ((anyContainsLower reasons "gas" = true ∨ anyContainsLower reasons "exceed" = true) →
      adjusted_sell_amount amount reasons n = amount * (1 / 2) ^ n) := by
  have h0 : 0 < n := hn
  constructor
  · rintro ⟨h1, h2⟩
    rw [adjusted_sell_amount, if_pos h0, if_neg (by simp [h1, h2])]
  · intro h
    have hcond : (anyContainsLower reasons "gas" || anyContainsLower reasons "exceed") = true := by
      rcases h with h | h <;> simp [h]
    rw [adjusted_sell_amount, if_pos h0, if_pos hcond]

/-- C2 witness: attempt 2 applies 0.8^2 to the 800 tokens carried from
attempt 1, giving 512. -/
theorem sell_reduction_compounds_witness :
    adjusted_sell_amount 800 ["reverted"] 2 = 800 * (4 / 5) ^ 2 :=
  (sell_reduction_compounds 800 ["reverted"] 2 (by norm_num)).1 (by decide)

/-- Parameters of a sell call whose swap succeeds using all of the gas. -/
def outOfGasCexParams : SellParams :=
  { tokenAddress := "0xT", tokenSymbol := "TKN", tokenDecimals := 1,
    amountTokens := some 2000, portfolioId := none, isTest := false,
    walletBalanceWei := 0 }

/-- One successful receipt whose gas usage equals the gas limit. -/
def outOfGasCexEvents : List SellEvent :=
  [SellEvent.proceed (some 1) 1 300000 ""]

/-- C3 counterexample: a receipt with success status whose gas
utilisation is 100 percent (at least 95) leaves the failure-reason
history empty: no OUT_OF_GAS hint is appended on the success path, the
call just returns the success outcome. -/
theorem out_of_gas_hint_claim_cex :
    execute_sell outOfGasCexParams outOfGasCexEvents = SellOutcome.success 2000 1 ∧
    (95 : ℚ) ≤ (300000 : ℚ) / ((⌊sell_gas_limit [] 0⌋ : ℤ) : ℚ) * 100 ∧
    (sellRun outOfGasCexParams outOfGasCexEvents).2.failureReasons = [] := by
  have hrun : sellRun outOfGasCexParams outOfGasCexEvents =
      (SellOutcome.success 2000 1,
       { amountTokens := some 2000, failureReasons := [],
         portfolioUpdates := [], attemptAmounts := [2000] }) := by
    norm_num [sellRun, sellGo, sellStep, initSellState, outOfGasCexParams,
      outOfGasCexEvents, adjusted_sell_amount, anyContainsLower, List.any_nil,
      sell_gas_limit, sell_gas_limit_multiplier]
  refine ⟨?_, ?_, by rw [hrun]⟩
  · rw [execute_sell, hrun]
  · norm_num [sell_gas_limit, sell_gas_limit_multiplier, anyContainsLower]

/-- C3 amended: the OUT_OF_GAS hint is appended when a receipt comes
back with FAILED status and the gas utilisation strictly exceeds 95
percent; it follows the decoded revert reason in the failure-reason
history carried to later attempts, and, because it mentions gas, those
later attempts escalate gas aggressively. -/
theorem out_of_gas_hint_on_failed_receipt (p : SellParams) (st : SellState)
    (attempt : ℕ) (a bnb gasUsed : ℚ) (status : ℕ) (revertReason : String)
    (hamt : st.amountTokens = some a)
    (hdust : 1000 ≤ ⌊adjusted_sell_amount a st.failureReasons attempt * 10 ^ p.tokenDecimals⌋)
    (hbnb : bnb ≠ 0)
    (hstatus : status ≠ 1)
    (hgas : 95 < gasUsed / ((⌊sell_gas_limit st.failureReasons attempt⌋ : ℤ) : ℚ) * 100) :
    (∃ st2, sellStep p attempt st (.proceed (some bnb) status gasUsed revertReason) =
        .inr st2 ∧
      st2.failureReasons = st.failureReasons ++ [revertReason, "OUT_OF_GAS"]) ∧
    anyContainsLower (st.failureReasons ++ [revertReason, "OUT_OF_GAS"]) "gas" = true := by
  have hnl : ¬(⌊adjusted_sell_amount a st.failureReasons attempt * 10 ^ p.tokenDecimals⌋ < 1000) :=
    not_lt.mpr hdust
  constructor
  · refine ⟨{ st with
        amountTokens := some (adjusted_sell_amount a st.failureReasons attempt),
        attemptAmounts := st.attemptAmounts ++ [adjusted_sell_amount a st.failureReasons attempt],
        failureReasons := st.failureReasons ++ [revertReason, "OUT_OF_GAS"] }, ?_, by simp⟩
    simp only [sellStep, hamt]
    simp [hnl, hbnb, hstatus, hgas]
  · have hog : containsLower "OUT_OF_GAS" "gas" = true := by decide
    simp [anyContainsLower, List.any_append, List.any_cons, hog]

/-- C3 amended witness: a failed receipt at full gas utilisation. -/
theorem out_of_gas_hint_on_failed_receipt_witness :
    (∃ st2, sellStep outOfGasCexParams 0
        { amountTokens := some 2000, failureReasons := [],
          portfolioUpdates := [], attemptAmounts := [] }
        (.proceed (some 1) 0 300000 "reverted") = .inr st2 ∧
      st2.failureReasons = [] ++ ["reverted", "OUT_OF_GAS"]) ∧
    anyContainsLower ([] ++ ["reverted", "OUT_OF_GAS"]) "gas" = true :=
  out_of_gas_hint_on_failed_receipt outOfGasCexParams
    { amountTokens := some 2000, failureReasons := [],
      portfolioUpdates := [], attemptAmounts := [] }
    0 2000 1 300000 0 "reverted" rfl
    (by norm_num [adjusted_sell_amount, outOfGasCexParams])
    (by norm_num) (by norm_num)
    (by norm_num [sell_gas_limit, sell_gas_limit_multiplier, anyContainsLower])

/-- Is a sell outcome the success dictionary. -/
def SellOutcome.isSuccess : SellOutcome → Bool
  | .success _ _ => true
  | _ => false

/-- Is a take-profit result the success dictionary. -/
def TakeProfitResult.isSuccess : TakeProfitResult → Bool
  | .success _ _ _ => true
  | _ => false

/-- A continuing sell attempt leaves the portfolio-update trace alone. -/
theorem sellStep_inr_updates (p : SellParams) (n : ℕ) (st : SellState) (e : SellEvent)
    (st2 : SellState) (h : sellStep p n st e = .inr st2) :
    st2.portfolioUpdates = st.portfolioUpdates := by
  rw [sellStep] at h
  repeat' split at h
  all_goals try (injection h with h2; subst h2)
  all_goals try (injection h)
  all_goals simp

/-- A continuing sell attempt records at least one failure reason. -/
theorem sellStep_inr_reasons (p : SellParams) (n : ℕ) (st : SellState) (e : SellEvent)
    (st2 : SellState) (h : sellStep p n st e = .inr st2) :
    st.failureReasons.length + 1 ≤ st2.failureReasons.length := by
  rw [sellStep] at h
  repeat' split at h
  all_goals try (injection h with h2; subst h2)
  all_goals try (injection h)
  all_goals simp
  all_goals try split
  all_goals try simp

/-- A terminal sell attempt appends the (portfolio_id, sold) update
exactly when its outcome is the success dictionary (for a non-test call
carrying a portfolio id). -/
theorem sellStep_inl_updates (p : SellParams) (n : ℕ) (st : SellState) (e : SellEvent)
    (pid : ℕ) (out : SellOutcome) (st2 : SellState)
    (hTest : p.isTest = false) (hPid : p.portfolioId = some pid)
    (h : sellStep p n st e = .inl (out, st2)) :
    st2.portfolioUpdates =
      if out.isSuccess then st.portfolioUpdates ++ [(pid, "sold")]
      else st.portfolioUpdates := by
  rw [sellStep] at h
  repeat' split at h
  all_goals try (injection h with h2; injection h2 with ho hs; subst ho; subst hs)
  all_goals try (injection h)
  all_goals simp_all [SellOutcome.isSuccess]

/-- Exhausting the loop leaves the portfolio-update trace alone. -/
theorem sellGo_inr_updates (p : SellParams) :
    ∀ (events : List SellEvent) (n : ℕ) (st st2 : SellState),
    sellGo p events n st = .inr st2 → st2.portfolioUpdates = st.portfolioUpdates := by
  intro events
  induction events with
  | nil =>
      intro n st st2 h
      rw [sellGo] at h
      injection h with h2
      subst h2
      rfl
  | cons e es ih =>
      intro n st st2 h
      rw [sellGo] at h
      cases hstep : sellStep p n st e with
      | inl o => rw [hstep] at h; injection h
      | inr stm =>
          rw [hstep] at h
          rw [ih (n + 1) stm st2 h, sellStep_inr_updates p n st e stm hstep]

/-- Exhausting the loop accrues at least one reason per attempt. -/
theorem sellGo_inr_reasons (p : SellParams) :
    ∀ (events : List SellEvent) (n : ℕ) (st st2 : SellState),
    sellGo p events n st = .inr st2 →
    st.failureReasons.length + events.length ≤ st2.failureReasons.length := by
  intro events
  induction events with
  | nil =>
      intro n st st2 h
      rw [sellGo] at h
      injection h with h2
      subst h2
      simp
  | cons e es ih =>
      intro n st st2 h
      rw [sellGo] at h
      cases hstep : sellStep p n st e with
      | inl o => rw [hstep] at h; injection h
      | inr stm =>
          rw [hstep] at h
          have h1 := sellStep_inr_reasons p n st e stm hstep
          have h2 := ih (n + 1) stm st2 h
          simp only [List.length_cons]
          omega

/-- A terminal loop outcome appends (portfolio_id, sold) exactly when it
is the success dictionary. -/
theorem sellGo_inl_updates (p : SellParams) (pid : ℕ)
    (hTest : p.isTest = false) (hPid : p.portfolioId = some pid) :
    ∀ (events : List SellEvent) (n : ℕ) (st : SellState) (out : SellOutcome)
      (st2 : SellState),
    sellGo p events n st = .inl (out, st2) →
    st2.portfolioUpdates =
      if out.isSuccess then st.portfolioUpdates ++ [(pid, "sold")]
      else st.portfolioUpdates := by
  intro events
  induction events with
  | nil =>
      intro n st out st2 h
      rw [sellGo] at h
      injection h
  | cons e es ih =>
      intro n st out st2 h
      rw [sellGo] at h
      cases hstep : sellStep p n st e with
      | inl o =>
          rw [hstep] at h
          injection h with h2
          subst h2
          exact sellStep_inl_updates p n st e pid out st2 hTest hPid hstep
      | inr stm =>
          rw [hstep] at h
          rw [ih (n + 1) stm out st2 h, sellStep_inr_updates p n st e stm hstep]

/-- A successful execute_sell carrying a portfolio id records exactly
the single update marking that position sold. -/
theorem sellRun_success_updates (p : SellParams) (events : List SellEvent) (pid : ℕ)
    (hTest : p.isTest = false) (hPid : p.portfolioId = some pid)
    (ts bnb : ℚ) (h : (sellRun p events).1 = .success ts bnb) :
    (sellRun p events).2.portfolioUpdates = [(pid, "sold")] := by
  rw [sellRun] at h ⊢
  cases hgo : sellGo p events 0 (initSellState p) with
  | inl o =>
      obtain ⟨out, st2⟩ := o
      have hu := sellGo_inl_updates p pid hTest hPid events 0 (initSellState p) out st2 hgo
      rw [hgo] at h
      have h2 : out = SellOutcome.success ts bnb := h
      subst h2
      show st2.portfolioUpdates = [(pid, "sold")]
      simpa [SellOutcome.isSuccess, initSellState] using hu
  | inr st =>
      rw [hgo] at h
      have h2 : SellOutcome.failed st.failureReasons = SellOutcome.success ts bnb := h
      exact SellOutcome.noConfusion h2

/-- One successful swap receipt for the take-profit sell. -/
def tpCexEvents : List SellEvent :=
  [SellEvent.proceed (some 1) 1 0 ""]

/-- C1 counterexample: a position of 2000 tokens at 120 percent profit
has 75 percent of it sold successfully, and that single pass marks the
whole position sold: the update list is [(7, sold)] and the entry
leaves the active portfolio even though a quarter of the stake remains. -/
theorem tiered_partial_sell_claim_cex :
    execute_take_profit_strategy "0xT" "TKN" 1 2000 1 7 (some (11 / 5)) 0 tpCexEvents =
      (.success 120 1500 1, [(7, "sold")]) ∧
    get_active_portfolio (apply_portfolio_updates
      [{ id := 7, tokenAddress := "0xT", tokenSymbol := "TKN", amountTokens := 2000,
         status := "active" }] [(7, "sold")]) = [] := by
  constructor
  · rw [execute_take_profit_strategy]
    norm_num [calculate_profit_percentage, tiered_sell_amount, TAKE_PROFIT_PERCENTAGE,
      tpCexEvents, sellRun, sellGo, sellStep, initSellState, adjusted_sell_amount,
      anyContainsLower, sell_gas_limit, sell_gas_limit_multiplier, take_profit_outcome]
  · decide

/-- C1 amended: whenever the tiered take-profit strategy returns its
success dictionary, the partial sell it ran has already marked the
position sold: the recorded portfolio updates are exactly
[(portfolio_id, sold)], so the entry leaves the active set in that
single pass instead of staying available with its remaining stake. -/
theorem tiered_partial_sell_marks_sold (addr sym : String) (dec : ℕ)
    (amount inv : ℚ) (pid wb : ℕ) (est : Option ℚ) (events : List SellEvent)
    (h : (execute_take_profit_strategy addr sym dec amount inv pid est wb
      events).1.isSuccess = true) :
    (execute_take_profit_strategy addr sym dec amount inv pid est wb events).2 =
      [(pid, "sold")] := by
  rcases est with _ | cv
  · simp [execute_take_profit_strategy, TakeProfitResult.isSuccess] at h
  · rw [execute_take_profit_strategy] at h ⊢
    cases htier : tiered_sell_amount (calculate_profit_percentage cv inv) amount with
    | none =>
        rw [htier] at h
        simp [TakeProfitResult.isSuccess] at h
    | some sa =>
        rw [htier] at h
        have h2 : (take_profit_outcome (calculate_profit_percentage cv inv) sa
            (sellRun { tokenAddress := addr, tokenSymbol := sym, tokenDecimals := dec,
                       amountTokens := some sa, portfolioId := some pid, isTest := false,
                       walletBalanceWei := wb } events)).1.isSuccess = true := h
        show (take_profit_outcome (calculate_profit_percentage cv inv) sa
            (sellRun { tokenAddress := addr, tokenSymbol := sym, tokenDecimals := dec,
                       amountTokens := some sa, portfolioId := some pid, isTest := false,
                       walletBalanceWei := wb } events)).2 = [(pid, "sold")]
        rcases hr : sellRun
            { tokenAddress := addr, tokenSymbol := sym, tokenDecimals := dec,
              amountTokens := some sa, portfolioId := some pid, isTest := false,
              walletBalanceWei := wb } events with ⟨out, stF⟩
        cases out with
        | success ts bnb =>
            show stF.portfolioUpdates = [(pid, "sold")]
            have hout1 : (sellRun
                { tokenAddress := addr, tokenSymbol := sym, tokenDecimals := dec,
                  amountTokens := some sa, portfolioId := some pid, isTest := false,
                  walletBalanceWei := wb } events).1 = SellOutcome.success ts bnb := by
              rw [hr]
            have hres := sellRun_success_updates _ events pid rfl rfl ts bnb hout1
            rw [hr] at hres
            exact hres
        | skipped r =>
            rw [hr] at h2
            simp [take_profit_outcome, TakeProfitResult.isSuccess] at h2
        | failedSingle r =>
            rw [hr] at h2
            simp [take_profit_outcome, TakeProfitResult.isSuccess] at h2
        | failed rs =>
            rw [hr] at h2
            simp [take_profit_outcome, TakeProfitResult.isSuccess] at h2

/-- C1 amended witness: a successful 50-percent tier sell at 60 percent
profit marks position 9 sold. -/
theorem tiered_partial_sell_marks_sold_witness :
    (execute_take_profit_strategy "0xW" "WWW" 1 4000 1 9 (some (8 / 5)) 0
      [SellEvent.proceed (some 2) 1 0 ""]).2 = [(9, "sold")] :=
  tiered_partial_sell_marks_sold "0xW" "WWW" 1 4000 1 9 0 (some (8 / 5))
    [SellEvent.proceed (some 2) 1 0 ""]
    (by rw [execute_take_profit_strategy]
        norm_num [calculate_profit_percentage, tiered_sell_amount,
          TAKE_PROFIT_PERCENTAGE, sellRun, sellGo, sellStep, initSellState,
          adjusted_sell_amount, anyContainsLower, sell_gas_limit,
          sell_gas_limit_multiplier, TakeProfitResult.isSuccess, take_profit_outcome])

/-- execute_buy comes back empty when every attempt raises. -/
theorem buy_exceptions_exhaust (pb : BuyParams) :
    ∀ be : List BuyEvent, (∀ e ∈ be, ∃ msg, e = BuyEvent.exception msg) →
    execute_buy pb be = none := by
  intro be
  induction be with
  | nil => intro _; rfl
  | cons e es ih =>
      intro hb
      obtain ⟨msg, hmsg⟩ := hb e (by simp)
      subst hmsg
      show buyGo pb (BuyEvent.exception msg :: es) = none
      rw [buyGo]
      exact ih fun x hx => hb x (by simp [hx])

/-- C4 counterexample: a buy whose three attempts all fail by exception
returns None, not a failed outcome, and carries no reason list. -/
theorem buy_exhaustion_returns_none_cex :
    execute_buy { tokenAddress := "0xB", bnbAmount := 1, isTest := false,
                  tokenDecimals := 18 }
      [BuyEvent.exception "timeout", BuyEvent.exception "timeout",
       BuyEvent.exception "timeout"] = none := rfl

/-- C4 amended: on exhaustion execute_sell returns the failed dictionary
carrying the accumulated failure reasons, at least one per attempt;
execute_buy, by contrast, returns None when every attempt raises (and
its reverted-receipt return carries no reason list at all). -/
theorem retry_exhaustion_outcomes (ps : SellParams) (se : List SellEvent)
    (stF : SellState) (pb : BuyParams) (be : List BuyEvent)
    (hs : sellGo ps se 0 (initSellState ps) = .inr stF)
    (hb : ∀ e ∈ be, ∃ msg, e = BuyEvent.exception msg) :
    execute_sell ps se = .failed stF.failureReasons ∧
    se.length ≤ stF.failureReasons.length ∧
    execute_buy pb be = none := by
  refine ⟨?_, ?_, buy_exceptions_exhaust pb be hb⟩
  · rw [execute_sell, sellRun, hs]
  · have h := sellGo_inr_reasons ps se 0 (initSellState ps) stF hs
    simpa [initSellState] using h

/-- Parameters of a sell call exhausted by two raising attempts. -/
def exhaustSellParams : SellParams :=
  { tokenAddress := "0xE", tokenSymbol := "EEE", tokenDecimals := 1,
    amountTokens := some 2000, portfolioId := none, isTest := false,
    walletBalanceWei := 0 }

/-- Two raising attempts. -/
def exhaustSellEvents : List SellEvent :=
  [SellEvent.exception "timeout A", SellEvent.exception "timeout B"]

/-- The loop state after those two failed attempts. -/
def exhaustSellFinal : SellState :=
  { amountTokens := some 1600, failureReasons := ["timeout A", "timeout B"],
    portfolioUpdates := [], attemptAmounts := [2000, 1600] }

/-- C4 witness: a sell exhausted by two exceptions returns the failed
dictionary with both reasons; a buy whose attempts all raise returns
None. -/
theorem retry_exhaustion_outcomes_witness :
    execute_sell exhaustSellParams exhaustSellEvents =
      .failed exhaustSellFinal.failureReasons ∧
    exhaustSellEvents.length ≤ exhaustSellFinal.failureReasons.length ∧
    execute_buy { tokenAddress := "0xB2", bnbAmount := 1, isTest := true,
                  tokenDecimals := 9 }
      [BuyEvent.exception "node down", BuyEvent.exception "node down"] = none := by
  have hs : sellGo exhaustSellParams exhaustSellEvents 0
      (initSellState exhaustSellParams) = .inr exhaustSellFinal := by
    have a1 : containsLower "timeout A" "gas" = false := by decide
    have a2 : containsLower "timeout A" "exceed" = false := by decide
    have e1 : exception_extra_reasons "timeout A" = [] := by decide
    have e2 : exception_extra_reasons "timeout B" = [] := by decide
    norm_num [sellGo, sellStep, initSellState, exhaustSellParams, exhaustSellEvents,
      exhaustSellFinal, adjusted_sell_amount, anyContainsLower, List.any_cons,
      List.any_nil, a1, a2, e1, e2]
  refine retry_exhaustion_outcomes exhaustSellParams exhaustSellEvents exhaustSellFinal
    _ _ hs ?_
  intro e he
  simp only [List.mem_cons, List.not_mem_nil, or_false] at he
  rcases he with rfl | rfl
  · exact ⟨"node down", rfl⟩
  · exact ⟨"node down", rfl⟩
